import Mathlib

/-!
Shallow embedding of the demo-mode email phishing analysis in
`src/src/pages/Index.tsx` (`handleEmailAnalysis`, lines 156-277).
Email subjects and bodies are modelled as lists of characters;
JavaScript `String.prototype.includes` is modelled by `containsSub`.
-/

namespace TrustByteGuard

/-- `startsWith pat text` is true when `pat` is a leading segment of `text`. -/
def startsWith : List Char → List Char → Bool
  | [], _ => true
  | _ :: _, [] => false
  | p :: ps, c :: cs => (p == c) && startsWith ps cs

/-- JavaScript `text.includes(pat)`: `pat` occurs contiguously inside `text`. -/
def containsSub (pat : List Char) : List Char → Bool
  | [] => startsWith pat []
  | c :: rest => startsWith pat (c :: rest) || containsSub pat rest

/-- `text.toLowerCase()` (ASCII case folding, as `Char.toLower`). -/
def lowerText (s : List Char) : List Char := s.map Char.toLower

/-- The matching text: backtick-template of subject, a space, and body, lowercased. -/
def fullText (subject body : List Char) : List Char :=
  lowerText (subject ++ ' ' :: body)

/-- Lexicon `urgencyWords` from the source. -/
def urgencyWords : List (List Char) :=
  ["urgent".data, "immediately".data, "asap".data, "right now".data,
   "act now".data, "limited time".data]

/-- Lexicon `authorityWords` from the source. -/
def authorityWords : List (List Char) :=
  ["verify".data, "confirm".data, "update".data, "validate".data,
   "security alert".data, "account locked".data]

/-- Lexicon `financialWords` from the source. -/
def financialWords : List (List Char) :=
  ["free money".data, "prize".data, "winner".data, "congratulations".data,
   "lottery".data]

/-- Lexicon `actionWords` from the source. -/
def actionWords : List (List Char) :=
  ["click here".data, "click now".data, "verify now".data, "reset password".data]

/-- Lexicon `threatWords` from the source. -/
def threatWords : List (List Char) :=
  ["account will be closed".data, "permanent suspension".data, "legal action".data]

/-- `lexicon.filter(word => fullText.includes(word)).length`. -/
def scoreOf (lex : List (List Char)) (subject body : List Char) : Nat :=
  (lex.filter fun w => containsSub w (fullText subject body)).length

/-- `lexicon.filter(word => fullText.includes(word))`, the `patterns_found` field. -/
def patterns_found (lex : List (List Char)) (subject body : List Char) :
    List (List Char) :=
  lex.filter fun w => containsSub w (fullText subject body)

def urgencyScore (s b : List Char) : Nat := scoreOf urgencyWords s b

def authorityScore (s b : List Char) : Nat := scoreOf authorityWords s b

def financialScore (s b : List Char) : Nat := scoreOf financialWords s b

def actionScore (s b : List Char) : Nat := scoreOf actionWords s b

def threatScore (s b : List Char) : Nat := scoreOf threatWords s b

def totalSuspiciousScore (s b : List Char) : Nat :=
  urgencyScore s b + authorityScore s b + financialScore s b +
    actionScore s b + threatScore s b

/-- `fullText.includes('http') || fullText.includes('www.')`. -/
def hasUrls (s b : List Char) : Bool :=
  containsSub "http".data (fullText s b) || containsSub "www.".data (fullText s b)

/-- Length of `(subject + body).split('!')`: one more than the count of bangs. -/
def exclamationSplitLen (s b : List Char) : Nat := (s ++ b).count '!' + 1

/-- `(emailData.subject + emailData.body).split('!').length > 3`. -/
def hasExclamation (s b : List Char) : Bool := decide (3 < exclamationSplitLen s b)

/-- `totalSuspiciousScore >= 2 || (urgencyScore >= 1 && hasUrls)`. -/
def isPhishing (s b : List Char) : Bool :=
  decide (2 ≤ totalSuspiciousScore s b) ||
    (decide (1 ≤ urgencyScore s b) && hasUrls s b)

/-- `isPhishing ? 'Phishing' : 'Safe'`. -/
def label (s b : List Char) : String :=
  if isPhishing s b then "Phishing" else "Safe"

/-- The `confidence` value; `Math.round` is the identity on these integers. -/
def confidence (s b : List Char) : Int :=
  if isPhishing s b then
    min 95 (50 + (totalSuspiciousScore s b : Int) * 15 +
      (if hasUrls s b then 20 else 0) + (if hasExclamation s b then 10 else 0))
  else
    max 5 (50 - (totalSuspiciousScore s b : Int) * 10)

/-- `confidence >= 80 ? 'HIGH RISK' : >= 60 ? 'MEDIUM RISK' : >= 40 ? 'LOW RISK' : 'SAFE'`. -/
def risk_level (s b : List Char) : String :=
  if 80 ≤ confidence s b then "HIGH RISK"
  else if 60 ≤ confidence s b then "MEDIUM RISK"
  else if 40 ≤ confidence s b then "LOW RISK"
  else "SAFE"

/-- The `red_flags` array: five conditional entries, nulls filtered out. -/
def red_flags (s b : List Char) : List String :=
  if isPhishing s b then
    ([if 2 ≤ urgencyScore s b then some "Multiple urgency indicators detected" else none,
      if 0 < threatScore s b then some "Threats or pressure tactics used" else none,
      if 0 < financialScore s b then some "Unsolicited financial offers or prizes" else none,
      if hasUrls s b then some "Suspicious links present" else none,
      if hasExclamation s b then some "Excessive exclamation marks" else none]).filterMap id
  else []

/-- `excessive_punctuation: hasExclamation ? 4 : 0`. -/
def excessive_punctuation (s b : List Char) : Nat :=
  if hasExclamation s b then 4 else 0

/-- `all_caps_words: []` (a constant in the source). -/
def all_caps_words (_s _b : List Char) : List String := []

/-- `suspicious_formatting: hasExclamation ? ['Excessive exclamation marks'] : []`. -/
def suspicious_formatting (s b : List Char) : List String :=
  if hasExclamation s b then ["Excessive exclamation marks"] else []

/-- `language_quality.quality_score: 85` (a constant in the source). -/
def quality_score (_s _b : List Char) : Nat := 85

theorem isPhishing_iff (s b : List Char) :
    isPhishing s b = true ↔
      2 ≤ totalSuspiciousScore s b ∨ (1 ≤ urgencyScore s b ∧ hasUrls s b = true) := by
  simp [isPhishing, Bool.or_eq_true, Bool.and_eq_true, decide_eq_true_eq]

/-- Claim C1: the result is labeled Phishing exactly when the total category
score is at least 2, or the urgency score is at least 1 and the text contains
a URL; otherwise it is labeled Safe. -/
theorem C1_label_iff (s b : List Char) :
    label s b =
      (if 2 ≤ totalSuspiciousScore s b ∨ (1 ≤ urgencyScore s b ∧ hasUrls s b = true)
       then "Phishing" else "Safe") := by
  by_cases h : 2 ≤ totalSuspiciousScore s b ∨ (1 ≤ urgencyScore s b ∧ hasUrls s b = true)
  · rw [if_pos h]
    have hp : isPhishing s b = true := (isPhishing_iff s b).mpr h
    simp [label, hp]
  · rw [if_neg h]
    have hp : isPhishing s b = false := by
      cases hb : isPhishing s b
      · rfl
      · exact absurd ((isPhishing_iff s b).mp hb) h
    simp [label, hp]

/-- Claim C5 counterexample: on fully empty input the code returns Safe with
confidence 50, not 5. -/
theorem C5_counterexample :
    label [] [] = "Safe" ∧ confidence [] [] = 50 ∧ (50 : Int) ≠ 5 := by
  decide

/-- Claim C5 amended: for the fully empty input the analysis returns label
Safe with confidence exactly 50. -/
theorem C5_amended_empty_input :
    label [] [] = "Safe" ∧ confidence [] [] = 50 := by
  decide

theorem hasExclamation_eq (s b : List Char) :
    hasExclamation s b = decide (3 ≤ (s ++ b).count '!') := by
  simp [hasExclamation, exclamationSplitLen, decide_eq_decide, Nat.lt_succ_iff]

/-- The confidence formula as the claim words it: the extra 10 points require
MORE THAN three exclamation marks. -/
def claimedConfidence (s b : List Char) : Int :=
  if isPhishing s b then
    min 95 (50 + (totalSuspiciousScore s b : Int) * 15 +
      (if hasUrls s b then 20 else 0) +
      (if 3 < (s ++ b).count '!' then 10 else 0))
  else
    max 5 (50 - (totalSuspiciousScore s b : Int) * 10)

/-- The confidence formula with the exclamation condition the code actually
tests: at least three exclamation marks. -/
def amendedConfidence (s b : List Char) : Int :=
  if isPhishing s b then
    min 95 (50 + (totalSuspiciousScore s b : Int) * 15 +
      (if hasUrls s b then 20 else 0) +
      (if 3 ≤ (s ++ b).count '!' then 10 else 0))
  else
    max 5 (50 - (totalSuspiciousScore s b : Int) * 10)

/-- Claim C2 counterexample: on a phishing input with exactly three
exclamation marks, the code yields confidence 90 while the claimed formula
(which adds 10 only when the count exceeds 3) yields 80. -/
theorem C2_counterexample :
    confidence [] "urgent verify!!!".data = 90 ∧
      claimedConfidence [] "urgent verify!!!".data = 80 := by
  decide

/-- Claim C2 amended: the confidence equals the claimed min and max formulas,
except that the 10-point exclamation bonus applies when the count of
exclamation marks is at least 3 (not strictly more than 3). -/
theorem C2_amended_confidence (s b : List Char) :
    confidence s b = amendedConfidence s b := by
  unfold confidence amendedConfidence
  rw [hasExclamation_eq]
  by_cases h : 3 ≤ (s ++ b).count '!' <;> simp [h]

/-- The risk band exactly as the claim words it, a step function of
confidence with closed-open bands. -/
def riskBand (c : Int) : String :=
  if c < 40 then "SAFE"
  else if c < 60 then "LOW RISK"
  else if c < 80 then "MEDIUM RISK"
  else "HIGH RISK"

/-- Claim C3: the risk level is the pure step function of confidence with
bands below 40, 40 to 59, 60 to 79, and 80 upward. -/
theorem C3_risk_level_band (s b : List Char) :
    risk_level s b = riskBand (confidence s b) := by
  unfold risk_level riskBand
  split_ifs <;> first | rfl | omega

/-- The excessive punctuation field as the claim words it: the actual count
of exclamation marks in subject plus body. -/
def claimedExcessivePunctuation (s b : List Char) : Nat := (s ++ b).count '!'

/-- Claim C8 counterexample: with exactly three exclamation marks the code
reports excessive punctuation 4 (not the true count 3) and still emits the
suspicious-formatting flag although the count does not exceed 3. -/
theorem C8_counterexample :
    excessive_punctuation [] "!!!".data = 4 ∧
      claimedExcessivePunctuation [] "!!!".data = 3 ∧
      suspicious_formatting [] "!!!".data = ["Excessive exclamation marks"] ∧
      ¬ (3 : Nat) > 3 := by
  decide

/-- Claim C8 amended: the reported excessive punctuation is the constant 4
when the count of exclamation marks in subject plus body is at least 3 and 0
otherwise (it is not the count itself), and the suspicious-formatting list
contains the flag exactly when that count is at least 3. -/
theorem C8_amended_punctuation (s b : List Char) :
    excessive_punctuation s b =
        (if 3 ≤ (s ++ b).count '!' then 4 else 0) ∧
      suspicious_formatting s b =
        (if 3 ≤ (s ++ b).count '!' then ["Excessive exclamation marks"] else []) := by
  unfold excessive_punctuation suspicious_formatting
  rw [hasExclamation_eq]
  by_cases h : 3 ≤ (s ++ b).count '!' <;> simp [h]

theorem totalSuspiciousScore_def (s b : List Char) :
    totalSuspiciousScore s b =
      urgencyScore s b + authorityScore s b + financialScore s b +
        actionScore s b + threatScore s b := rfl

theorem confidence_phishing_bounds (s b : List Char)
    (hp : isPhishing s b = true) :
    80 ≤ confidence s b ∧ confidence s b ≤ 95 := by
  have h := (isPhishing_iff s b).mp hp
  have hu : urgencyScore s b ≤ totalSuspiciousScore s b := by
    rw [totalSuspiciousScore_def]; omega
  unfold confidence
  rw [if_pos hp]
  rcases h with h2 | ⟨h1, hurl⟩
  · cases hcu : hasUrls s b <;> cases hce : hasExclamation s b <;>
      simp [hcu, hce] <;> omega
  · rw [if_pos hurl]
    cases hce : hasExclamation s b <;> simp [hce] <;> omega

theorem confidence_safe_values (s b : List Char)
    (hp : isPhishing s b = false) :
    confidence s b = 40 ∨ confidence s b = 50 := by
  have h2 : ¬ 2 ≤ totalSuspiciousScore s b := by
    intro hh
    have := (isPhishing_iff s b).mpr (Or.inl hh)
    rw [hp] at this
    exact Bool.noConfusion this
  unfold confidence
  rw [hp]
  simp only [Bool.false_eq_true, if_false]
  omega

/-- Claim C4: confidence always lies in the range 0 to 100; a Phishing label
means confidence at least 50, a Safe label means confidence at most 50. -/
theorem C4_confidence_bounds (s b : List Char) :
    0 ≤ confidence s b ∧ confidence s b ≤ 100 ∧
      (label s b = "Phishing" → 50 ≤ confidence s b) ∧
      (label s b = "Safe" → confidence s b ≤ 50) := by
  cases hp : isPhishing s b
  · have hv := confidence_safe_values s b hp
    have hl : label s b = "Safe" := by simp [label, hp]
    refine ⟨?_, ?_, ?_, ?_⟩
    · rcases hv with hv | hv <;> omega
    · rcases hv with hv | hv <;> omega
    · intro hlab; rw [hl] at hlab; exact absurd hlab (by decide)
    · intro _; rcases hv with hv | hv <;> omega
  · have hv := confidence_phishing_bounds s b hp
    have hl : label s b = "Phishing" := by simp [label, hp]
    exact ⟨by omega, by omega, fun _ => by omega,
      fun hlab => by rw [hl] at hlab; exact absurd hlab (by decide)⟩

/-- Claim C4 witness: the bounds applied to one phishing and one safe input. -/
theorem C4_witness :
    50 ≤ confidence [] "urgent verify".data ∧ confidence [] [] ≤ 50 :=
  ⟨(C4_confidence_bounds [] "urgent verify".data).2.2.1 (by decide),
   (C4_confidence_bounds [] []).2.2.2 (by decide)⟩

/-- Claim C10: only the LOW RISK and HIGH RISK bands are reachable: phishing
results have confidence at least 80 and band HIGH RISK, safe results have
confidence exactly 40 or 50 and band LOW RISK. -/
theorem C10_risk_levels (s b : List Char) :
    (label s b = "Phishing" → 80 ≤ confidence s b ∧ risk_level s b = "HIGH RISK") ∧
      (label s b = "Safe" →
        (confidence s b = 40 ∨ confidence s b = 50) ∧ risk_level s b = "LOW RISK") ∧
      (risk_level s b = "LOW RISK" ∨ risk_level s b = "HIGH RISK") := by
  cases hp : isPhishing s b
  · have hv := confidence_safe_values s b hp
    have hl : label s b = "Safe" := by simp [label, hp]
    have hr : risk_level s b = "LOW RISK" := by
      unfold risk_level
      rw [if_neg (by rcases hv with hv | hv <;> omega),
        if_neg (by rcases hv with hv | hv <;> omega),
        if_pos (by rcases hv with hv | hv <;> omega)]
    exact ⟨fun hlab => by rw [hl] at hlab; exact absurd hlab (by decide),
      fun _ => ⟨hv, hr⟩, Or.inl hr⟩
  · have hv := confidence_phishing_bounds s b hp
    have hl : label s b = "Phishing" := by simp [label, hp]
    have hr : risk_level s b = "HIGH RISK" := by
      unfold risk_level; rw [if_pos (by omega)]
    exact ⟨fun _ => ⟨hv.1, hr⟩,
      fun hlab => by rw [hl] at hlab; exact absurd hlab (by decide), Or.inr hr⟩

/-- Claim C10 witness: the band facts applied to one phishing and one safe
input. -/
theorem C10_witness :
    risk_level [] "urgent verify".data = "HIGH RISK" ∧
      risk_level [] [] = "LOW RISK" :=
  ⟨((C10_risk_levels [] "urgent verify".data).1 (by decide)).2,
   ((C10_risk_levels [] []).2.1 (by decide)).2⟩

/-- The red flags exactly as the claim words them: six conditional entries,
with a strictly-more-than-three exclamation threshold and a flag for a
non-empty all-caps word list. -/
def claimedRedFlags (s b : List Char) : List String :=
  if label s b = "Phishing" then
    (if 2 ≤ urgencyScore s b then ["Multiple urgency indicators detected"] else []) ++
      (if 0 < threatScore s b then ["Threats or pressure tactics used"] else []) ++
      (if 0 < financialScore s b then ["Unsolicited financial offers or prizes"] else []) ++
      (if hasUrls s b = true then ["Suspicious links present"] else []) ++
      (if 3 < (s ++ b).count '!' then ["Excessive exclamation marks"] else []) ++
      (if all_caps_words s b ≠ [] then ["Excessive use of capital letters"] else [])
  else []

/-- Claim C6 counterexample: on a phishing input with exactly three
exclamation marks the code emits the exclamation red flag, while the claimed
list (threshold strictly more than three) is empty. -/
theorem C6_counterexample :
    red_flags [] "urgent verify!!!".data = ["Excessive exclamation marks"] ∧
      claimedRedFlags [] "urgent verify!!!".data = [] := by
  decide

/-- Claim C6 amended: red flags are empty for Safe results; for Phishing
results they are exactly the five conditional entries in the code, in order,
with the exclamation flag emitted when the count is at least 3, and no
capital-letters flag exists. -/
theorem C6_amended_red_flags (s b : List Char) :
    (label s b = "Safe" → red_flags s b = []) ∧
      (label s b = "Phishing" → red_flags s b =
        (if 2 ≤ urgencyScore s b then ["Multiple urgency indicators detected"] else []) ++
          (if 0 < threatScore s b then ["Threats or pressure tactics used"] else []) ++
          (if 0 < financialScore s b then ["Unsolicited financial offers or prizes"] else []) ++
          (if hasUrls s b = true then ["Suspicious links present"] else []) ++
          (if 3 ≤ (s ++ b).count '!' then ["Excessive exclamation marks"] else [])) := by
  cases hp : isPhishing s b
  · have hl : label s b = "Safe" := by simp [label, hp]
    refine ⟨fun _ => by simp [red_flags, hp], fun hlab => ?_⟩
    rw [hl] at hlab; exact absurd hlab (by decide)
  · have hl : label s b = "Phishing" := by simp [label, hp]
    refine ⟨fun hlab => by rw [hl] at hlab; exact absurd hlab (by decide),
      fun _ => ?_⟩
    unfold red_flags
    rw [if_pos hp, hasExclamation_eq]
    simp only [decide_eq_true_eq]
    split_ifs <;> rfl

/-- Claim C6 witness: the amended red-flag description applied to one safe
and one phishing input. -/
theorem C6_witness :
    red_flags [] [] = [] ∧
      red_flags [] "urgent verify!!!".data = ["Excessive exclamation marks"] :=
  ⟨(C6_amended_red_flags [] []).1 (by decide),
   ((C6_amended_red_flags [] "urgent verify!!!".data).2 (by decide)).trans
     (by decide)⟩

/-- Number of the five populated categories whose score is positive. -/
def suspiciousCategoryCount (s b : List Char) : Nat :=
  ([urgencyScore s b, authorityScore s b, financialScore s b, actionScore s b,
      threatScore s b].filter fun n => decide (0 < n)).length

/-- Claim C9 counterexample: on the empty input no category is suspicious and
there are no exclamation marks, so the claimed quality score is 100 minus no
penalties, yet the code reports the constant 85. -/
theorem C9_counterexample :
    quality_score [] [] = 85 ∧ suspiciousCategoryCount [] [] = 0 ∧
      (([] : List Char) ++ ([] : List Char)).count '!' = 0 ∧
      (85 : Nat) ≠ 100 - 15 * 0 := by
  decide

/-- Claim C9 amended: the language quality score is the constant 85 for every
input; no penalty is ever applied. -/
theorem C9_amended_quality (s b : List Char) : quality_score s b = 85 := rfl

theorem startsWith_append (p : List Char) (t u : List Char)
    (h : startsWith p t = true) : startsWith p (t ++ u) = true := by
  induction p generalizing t with
  | nil => rfl
  | cons a as ih =>
    cases t with
    | nil => exact absurd h (by simp [startsWith])
    | cons c cs =>
      simp only [startsWith, List.cons_append, Bool.and_eq_true] at h ⊢
      exact ⟨h.1, ih cs h.2⟩

theorem containsSub_nil (t : List Char) : containsSub [] t = true := by
  induction t with
  | nil => rfl
  | cons c cs ih => simp [containsSub, startsWith]

theorem containsSub_append (pat t u : List Char)
    (h : containsSub pat t = true) : containsSub pat (t ++ u) = true := by
  induction t with
  | nil =>
    cases pat with
    | nil => exact containsSub_nil u
    | cons a as => exact absurd h (by simp [containsSub, startsWith])
  | cons c cs ih =>
    rw [List.cons_append]
    simp only [containsSub, Bool.or_eq_true] at h ⊢
    rcases h with h | h
    · exact Or.inl (startsWith_append pat (c :: cs) u h)
    · exact Or.inr (ih h)

theorem matched_length_le (lex : List (List Char)) (t u : List Char) :
    (lex.filter fun w => containsSub w t).length ≤
      (lex.filter fun w => containsSub w (t ++ u)).length := by
  induction lex with
  | nil => simp
  | cons w rest ih =>
    simp only [List.filter_cons]
    by_cases h : containsSub w t = true
    · rw [if_pos h, if_pos (containsSub_append w t u h)]
      simpa using ih
    · rw [if_neg h]
      by_cases h2 : containsSub w (t ++ u) = true
      · rw [if_pos h2]
        exact ih.trans (by simp)
      · rw [if_neg h2]
        exact ih

theorem fullText_append (s b extra : List Char) :
    fullText s (b ++ extra) = fullText s b ++ lowerText extra := by
  simp [fullText, lowerText]

theorem scoreOf_mono (lex : List (List Char)) (s b extra : List Char) :
    scoreOf lex s b ≤ scoreOf lex s (b ++ extra) := by
  unfold scoreOf
  rw [fullText_append]
  exact matched_length_le lex (fullText s b) (lowerText extra)

/-- Claim C7 counterexample: the text made of subject empty and body
containing the already-matched action phrase and the fragment of another;
appending a second occurrence of the matched phrase creates a fresh
cross-boundary match, so the action score rises from 1 to 2 and
patterns_found changes. -/
theorem C7_counterexample :
    containsSub "reset password".data
        (fullText [] "reset password click he".data) = true ∧
      actionScore [] "reset password click he".data = 1 ∧
      actionScore []
        ("reset password click he".data ++ "reset password".data) = 2 ∧
      patterns_found actionWords [] "reset password click he".data ≠
        patterns_found actionWords []
          ("reset password click he".data ++ "reset password".data) := by
  decide

/-- Claim C7 amended: each category score is the length of its duplicate-free
patterns_found list, counting each matching lexicon phrase once however often
it occurs; and appending further text to the body, in particular a new
distinct matching phrase, never decreases any category score. Appending even
a duplicate occurrence can, however, change scores through new cross-boundary
matches. -/
theorem C7_amended_scores (s b extra : List Char) :
    urgencyScore s b = (patterns_found urgencyWords s b).length ∧
      authorityScore s b = (patterns_found authorityWords s b).length ∧
      financialScore s b = (patterns_found financialWords s b).length ∧
      actionScore s b = (patterns_found actionWords s b).length ∧
      threatScore s b = (patterns_found threatWords s b).length ∧
      (patterns_found urgencyWords s b).Nodup ∧
      (patterns_found authorityWords s b).Nodup ∧
      (patterns_found financialWords s b).Nodup ∧
      (patterns_found actionWords s b).Nodup ∧
      (patterns_found threatWords s b).Nodup ∧
      urgencyScore s b ≤ urgencyScore s (b ++ extra) ∧
      authorityScore s b ≤ authorityScore s (b ++ extra) ∧
      financialScore s b ≤ financialScore s (b ++ extra) ∧
      actionScore s b ≤ actionScore s (b ++ extra) ∧
      threatScore s b ≤ threatScore s (b ++ extra) := by
  refine ⟨rfl, rfl, rfl, rfl, rfl, ?_, ?_, ?_, ?_, ?_,
    scoreOf_mono urgencyWords s b extra, scoreOf_mono authorityWords s b extra,
    scoreOf_mono financialWords s b extra, scoreOf_mono actionWords s b extra,
    scoreOf_mono threatWords s b extra⟩ <;>
    exact List.Nodup.filter _ (by decide)

end TrustByteGuard
